import Mathlib

/-!
Verification of the birthday-surprise web application's logic-bearing code:
the countdown hook, the audio-session hook (both variants), the category
selection / try-again handlers, and the guestbook submission handler.

Machine numbers (JS `Number` millisecond timestamps and differences) are
modelled as `Int`; fractional quantities fed to `Math.random`, `Math.floor`
and `formatTime` are modelled as `ℚ`.  Promise-based media operations take
an explicit `ok : Bool` parameter standing for whether the play request
resolved or rejected; observable callback invocations and console logs are
recorded in an explicit event log.
-/

/-! ## Countdown hook (`useCountdown`) -/

/-- The day/hour/minute/second breakdown kept in `countdownTime`. -/
structure CountdownTime where
  days : Nat
  hours : Nat
  minutes : Nat
  seconds : Nat
deriving DecidableEq, Repr

def zeroTime : CountdownTime := ⟨0, 0, 0, 0⟩

/-- The unit arithmetic of `calculateTimeLeft` on a positive millisecond
difference: `Math.floor` and `%` on a positive JS number coincide with
`Nat` division and modulus. -/
def breakdown (diff : Int) : CountdownTime :=
  let d := diff.toNat
  { days := d / 86400000
    hours := d % 86400000 / 3600000
    minutes := d % 3600000 / 60000
    seconds := d % 60000 / 1000 }

/-- `calculateTimeLeft` from the hook's effect: given the target and the
current wall-clock instant (both in ms), returns the displayed breakdown and
whether the `difference <= 0` branch ran `setCountdownEnded(true)`. -/
def calculateTimeLeft (target now : Int) : CountdownTime × Bool :=
  if target - now ≤ 0 then (zeroTime, true)
  else (breakdown (target - now), false)

/-- The hook's state: resolved target instant, displayed breakdown,
`countdownEnded`, and whether the 1-second interval is still armed. -/
structure CdState where
  target : Int
  time : CountdownTime
  ended : Bool
  timerActive : Bool
deriving DecidableEq, Repr

/-- The effect body at mount: run the initial calculation (which may set
`countdownEnded`) and arm the interval. The `useState` initial values are
`ended = false` and an all-zero breakdown. -/
def mount (target now0 : Int) : CdState :=
  let r := calculateTimeLeft target now0
  { target := target, time := r.1, ended := r.2, timerActive := true }

/-- One firing of the `setInterval` callback at wall-clock instant `now`:
recompute the breakdown, and if it is all zero set `countdownEnded` and
clear the interval.  When the interval has been cleared nothing fires. -/
def tick (st : CdState) (now : Int) : CdState :=
  if st.timerActive then
    let r := calculateTimeLeft st.target now
    if r.1 = zeroTime then
      { target := st.target, time := r.1, ended := true, timerActive := false }
    else
      { target := st.target, time := r.1, ended := st.ended || r.2, timerActive := true }
  else st

/-- `resetCountdown` called with an explicit new target date: clears
`countdownEnded`, zeroes the displayed breakdown, and returns the resolved
date; it neither re-targets nor re-arms the still-mounted hook. -/
def resetCountdown (st : CdState) (newTargetDate : Int) : CdState × Int :=
  ({ st with ended := false, time := zeroTime }, newTargetDate)

/-- The hook states reachable from mounting at instant `now0`, ticking at
non-decreasing wall-clock instants (the second component records the last
observed instant). -/
inductive Reachable (target now0 : Int) : CdState → Int → Prop where
  | base : Reachable target now0 (mount target now0) now0
  | step : ∀ {st : CdState} {n nn : Int}, Reachable target now0 st n → n ≤ nn →
      Reachable target now0 (tick st nn) nn

/-- Invariant: in every reachable state with `countdownEnded = true`, the
displayed breakdown is all zero, and if the interval is still armed the
target does not lie after the last observed instant. -/
lemma reachable_ended_inv {target now0 : Int} {st : CdState} {n : Int}
    (hr : Reachable target now0 st n) (he : st.ended = true) :
    st.time = zeroTime ∧ (st.timerActive = true → st.target ≤ n) := by
  induction hr with
  | base =>
    by_cases hle : target - now0 ≤ 0
    · refine ⟨by simp [mount, calculateTimeLeft, hle], fun _ => ?_⟩
      have htg : (mount target now0).target = target := rfl
      rw [htg]
      omega
    · exfalso
      simp [mount, calculateTimeLeft, hle] at he
  | step hr' hle ih =>
    rename_i st n nn
    by_cases hact : st.timerActive = true
    · by_cases hz : (calculateTimeLeft st.target nn).1 = zeroTime
      · constructor
        · simp [tick, hact, hz]
        · intro hact'
          exfalso
          simp [tick, hact, hz] at hact'
      · -- the non-zero branch: ended is unchanged, so the IH applies
        have hdiff : ¬ (st.target - nn ≤ 0) := by
          intro hc
          exact hz (by simp [calculateTimeLeft, hc])
        have hz' : ¬ breakdown (st.target - nn) = zeroTime := by
          simpa [calculateTimeLeft, hdiff] using hz
        have hend : st.ended = true := by
          simpa [tick, hact, calculateTimeLeft, hdiff, hz'] using he
        have hiv := ih hend
        have : st.target ≤ n := hiv.2 hact
        exact absurd (by omega : st.target - nn ≤ 0) hdiff
    · have hst : tick st nn = st := by simp [tick, hact]
      rw [hst] at he ⊢
      have := ih he
      exact ⟨this.1, fun h => absurd h hact⟩

/-- C3: in every reachable countdown state in which `ended` has become true,
the remaining breakdown is all zero, it is again all zero (with `ended`
still true) after any subsequent interval tick, and an explicit
`resetCountdown` with a new target clears `ended` and zeroes the remainder. -/
theorem countdown_ended_all_zero_until_reset
    (target now0 : Int) (st : CdState) (n nn d : Int)
    (hr : Reachable target now0 st n) (he : st.ended = true) (hle : n ≤ nn) :
    st.time = zeroTime ∧
    (tick st nn).time = zeroTime ∧ (tick st nn).ended = true ∧
    (resetCountdown st d).1.ended = false ∧ (resetCountdown st d).1.time = zeroTime := by
  obtain ⟨hz, hact⟩ := reachable_ended_inv hr he
  refine ⟨hz, ?_, ?_, rfl, rfl⟩
  · by_cases ha : st.timerActive = true
    · have : st.target - nn ≤ 0 := by
        have := hact ha
        omega
      simp [tick, ha, calculateTimeLeft, this]
    · simp [tick, ha, hz]
  · by_cases ha : st.timerActive = true
    · have : st.target - nn ≤ 0 := by
        have := hact ha
        omega
      simp [tick, ha, calculateTimeLeft, this]
    · simp [tick, ha, he]

/-- Witness for C3 at target 0, mounted at instant 5, ticked at instant 7. -/
theorem countdown_ended_all_zero_until_reset_witness :
    (mount 0 5).time = zeroTime ∧
    (tick (mount 0 5) 7).time = zeroTime ∧ (tick (mount 0 5) 7).ended = true ∧
    (resetCountdown (mount 0 5) 100).1.ended = false ∧
    (resetCountdown (mount 0 5) 100).1.time = zeroTime :=
  countdown_ended_all_zero_until_reset 0 5 (mount 0 5) 5 7 100
    (Reachable.base) (by decide) (by decide)

/-- C4: for a target instant strictly in the past at hook initialization,
the very first computation yields an all-zero remaining breakdown and
`ended = true` immediately. -/
theorem countdown_past_target_immediate_end (target now0 : Int) (h : target < now0) :
    (mount target now0).time = zeroTime ∧ (mount target now0).ended = true := by
  have hle : target - now0 ≤ 0 := by omega
  constructor <;> simp [mount, calculateTimeLeft, hle]

/-- Witness for C4 at target 10, mounted at instant 42. -/
theorem countdown_past_target_immediate_end_witness :
    (mount 10 42).time = zeroTime ∧ (mount 10 42).ended = true :=
  countdown_past_target_immediate_end 10 42 (by decide)

/-! ## Default target date (`defaultTargetDate` in `useCountdown`) -/

/-- Gregorian leap-year rule, as implemented by the JS `Date` calendar. -/
def isLeapYear (y : Int) : Bool :=
  (y % 4 == 0 && y % 100 != 0) || y % 400 == 0

/-- Milliseconds from the start of year `y` to `new Date(y, 3, 15)`,
i.e. local midnight on April 15 (January + February + March + 14 days). -/
def april15Offset (y : Int) : Int :=
  (31 + (if isLeapYear y then 29 else 28) + 31 + 14) * 86400000

/-- A wall-clock instant, given as a year and the milliseconds elapsed since
the start of that year.  `Date.getTime` is monotone in this representation,
so JS `Date` comparison is lexicographic comparison on it. -/
structure Instant where
  year : Int
  msInYear : Int
deriving DecidableEq, Repr

/-- Well-formedness of the representation: the offset lies within the year. -/
def InstantValid (t : Instant) : Prop :=
  0 ≤ t.msInYear ∧ t.msInYear < (if isLeapYear t.year then 366 else 365) * 86400000

/-- JS `Date` comparison `a < b` on timestamps, via lexicographic order. -/
def instLtB (a b : Instant) : Bool :=
  a.year < b.year || (a.year == b.year && a.msInYear < b.msInYear)

/-- `defaultTargetDate` from `useCountdown`: April 15 of the current year,
rolled to the next year when `today > nextBirthday`. -/
def defaultTargetDate (today : Instant) : Instant :=
  let nextBirthday : Instant := ⟨today.year, april15Offset today.year⟩
  if instLtB nextBirthday today then
    ⟨today.year + 1, april15Offset (today.year + 1)⟩
  else nextBirthday

/-- Modelled from the spec's words, for comparison with the code: the
calendar date April 15 "has already passed this year", i.e. today's calendar
date is April 16 or later of the current year. -/
def april15DatePassed (today : Instant) : Prop :=
  april15Offset today.year + 86400000 ≤ today.msInYear

/-- C5 counterexample: at 1:00 am on April 15 2025 the date April 15 has not
passed this year, yet the code already targets April 15 2026; so the
rollover is not governed by the date having passed. -/
theorem defaultTargetDate_april15_rolls_over :
    (defaultTargetDate ⟨2025, april15Offset 2025 + 3600000⟩).year = 2026 ∧
    ¬ april15DatePassed ⟨2025, april15Offset 2025 + 3600000⟩ ∧
    InstantValid ⟨2025, april15Offset 2025 + 3600000⟩ := by
  refine ⟨by decide, ?_, by decide, by decide⟩
  intro h
  simp only [april15DatePassed, april15Offset, isLeapYear] at h
  omega

/-- C5 as amended: the default target is always a midnight-April-15 instant;
it is this year's whenever the current instant is at or before this year's
April 15 midnight, and next year's as soon as that midnight is strictly
past — in particular already during April 15 itself. -/
theorem defaultTargetDate_next_occurrence (t : Instant) (_hv : InstantValid t) :
    (defaultTargetDate t).msInYear = april15Offset (defaultTargetDate t).year ∧
    (t.msInYear ≤ april15Offset t.year →
      defaultTargetDate t = ⟨t.year, april15Offset t.year⟩) ∧
    (april15Offset t.year < t.msInYear →
      defaultTargetDate t = ⟨t.year + 1, april15Offset (t.year + 1)⟩) := by
  have hlt : instLtB ⟨t.year, april15Offset t.year⟩ t = decide (april15Offset t.year < t.msInYear) := by
    simp [instLtB]
  refine ⟨?_, ?_, ?_⟩
  · by_cases h : april15Offset t.year < t.msInYear
    · simp [defaultTargetDate, hlt, h]
    · simp [defaultTargetDate, hlt, h]
  · intro h
    have h' : ¬ april15Offset t.year < t.msInYear := by omega
    simp [defaultTargetDate, hlt, h']
  · intro h
    simp [defaultTargetDate, hlt, h]

/-- Witness for the amended C5 on March 1 2025, midday. -/
theorem defaultTargetDate_next_occurrence_witness :
    (defaultTargetDate ⟨2025, 5140800000⟩).msInYear
        = april15Offset (defaultTargetDate ⟨2025, 5140800000⟩).year ∧
    ((⟨2025, 5140800000⟩ : Instant).msInYear ≤ april15Offset 2025 →
      defaultTargetDate ⟨2025, 5140800000⟩ = ⟨2025, april15Offset 2025⟩) ∧
    (april15Offset 2025 < (⟨2025, 5140800000⟩ : Instant).msInYear →
      defaultTargetDate ⟨2025, 5140800000⟩ = ⟨2026, april15Offset 2026⟩) :=
  defaultTargetDate_next_occurrence ⟨2025, 5140800000⟩ ⟨by decide, by decide⟩

/-! ## `formatTime` (audio hook, both variants) -/

/-- JS number-to-integer truncation toward zero, as used by the `%` operator. -/
def truncQ (q : ℚ) : Int := if q < 0 then Int.ceil q else Int.floor q

/-- The JS remainder operator `a % b`: `a - b * trunc(a / b)`. -/
def jsMod (a b : ℚ) : ℚ := a - b * (truncQ (a / b) : ℚ)

/-- `formatTime` variant 1: no input guard; `Math.floor` of the minute and
second components rendered as `M:SS` with a zero pad below ten. -/
def formatTime1 (timeInSeconds : ℚ) : String :=
  let minutes : Int := Int.floor (timeInSeconds / 60)
  let seconds : Int := Int.floor (jsMod timeInSeconds 60)
  toString minutes ++ ":" ++ (if seconds < 10 then "0" else "") ++ toString seconds

/-- `formatTime` variant 2: guards `!Number.isFinite(t) || t < 0` to
`"0:00"`.  Non-finite numbers have no counterpart in `ℚ`, so only the
negative disjunct of the guard is representable here. -/
def formatTime2 (timeInSeconds : ℚ) : String :=
  if timeInSeconds < 0 then "0:00"
  else
    let minutes : Int := Int.floor (timeInSeconds / 60)
    let seconds : Int := Int.floor (jsMod timeInSeconds 60)
    toString minutes ++ ":" ++ (if seconds < 10 then "0" else "") ++ toString seconds

/-- C6 counterexample: variant 1 has no guard, so the negative input -61
renders as "-2:0-1" rather than the claimed "0:00". -/
theorem formatTime1_negative_not_guarded :
    formatTime1 (-61) = "-2:0-1" := by
  have h1 : Int.floor ((-61 : ℚ) / 60) = -2 := by
    rw [Int.floor_eq_iff]
    constructor <;> norm_num
  have hc : Int.ceil ((-61 : ℚ) / 60) = -1 := by
    rw [Int.ceil_eq_iff]
    constructor <;> norm_num
  have htr : truncQ ((-61 : ℚ) / 60) = -1 := by
    rw [truncQ, if_pos (by norm_num : ((-61 : ℚ) / 60) < 0), hc]
  have h2 : jsMod (-61) 60 = -1 := by
    rw [jsMod, htr]
    norm_num
  have h3 : Int.floor (jsMod (-61 : ℚ) 60) = -1 := by
    rw [h2]
    norm_num
  simp only [formatTime1, h1, h3]
  decide

/-- C6 as amended: variant 2 guards negative input to "0:00"; on
non-negative input both variants agree and render `M:SS`, where the
rendered minute and second values decompose `Math.floor` of the input with
the seconds in `[0, 60)`, the seconds zero-padded below ten. -/
theorem formatTime_renders_m_ss (t u : ℚ) (ht : 0 ≤ t) (hu : u < 0) :
    Int.floor (t / 60) * 60 + Int.floor (jsMod t 60) = Int.floor t ∧
    0 ≤ Int.floor (jsMod t 60) ∧ Int.floor (jsMod t 60) < 60 ∧
    formatTime1 t = toString (Int.floor (t / 60)) ++ ":" ++
      (if Int.floor (jsMod t 60) < 10 then "0" else "") ++
      toString (Int.floor (jsMod t 60)) ∧
    formatTime2 t = formatTime1 t ∧
    formatTime2 u = "0:00" := by
  have htr : truncQ (t / 60) = Int.floor (t / 60) := by
    have hnn : ¬ (t / 60 < 0) := not_lt.mpr (div_nonneg ht (by norm_num))
    simp [truncQ, hnn]
  have hmod : jsMod t 60 = t - ((60 * Int.floor (t / 60) : ℤ) : ℚ) := by
    unfold jsMod
    rw [htr]
    push_cast
    ring
  have hs : Int.floor (jsMod t 60) = Int.floor t - 60 * Int.floor (t / 60) := by
    rw [hmod, Int.floor_sub_int]
  have hle : ((60 * Int.floor (t / 60) : ℤ) : ℚ) ≤ t := by
    push_cast
    calc (60 : ℚ) * (Int.floor (t / 60) : ℚ) ≤ 60 * (t / 60) :=
          mul_le_mul_of_nonneg_left (Int.floor_le _) (by norm_num)
      _ = t := by field_simp
  have h0 : 0 ≤ Int.floor (jsMod t 60) := by
    rw [hs]
    have := Int.le_floor.mpr hle
    omega
  have hltq : t < ((60 * Int.floor (t / 60) + 60 : ℤ) : ℚ) := by
    push_cast
    have hfl := Int.lt_floor_add_one (t / 60)
    calc t = 60 * (t / 60) := by field_simp
      _ < 60 * ((Int.floor (t / 60) : ℚ) + 1) :=
          mul_lt_mul_of_pos_left hfl (by norm_num)
      _ = 60 * (Int.floor (t / 60) : ℚ) + 60 := by ring
  have hlt : Int.floor (jsMod t 60) < 60 := by
    rw [hs]
    have := Int.floor_lt.mpr hltq
    omega
  refine ⟨by rw [hs]; ring, h0, hlt, rfl, ?_, by simp [formatTime2, hu]⟩
  simp [formatTime2, formatTime1, not_lt.mpr ht]

/-- Witness for the amended C6 at inputs 125 and -1. -/
theorem formatTime_renders_m_ss_witness :
    Int.floor ((125 : ℚ) / 60) * 60 + Int.floor (jsMod 125 60) = Int.floor (125 : ℚ) ∧
    0 ≤ Int.floor (jsMod 125 60) ∧ Int.floor (jsMod 125 60) < 60 ∧
    formatTime1 125 = toString (Int.floor ((125 : ℚ) / 60)) ++ ":" ++
      (if Int.floor (jsMod 125 60) < 10 then "0" else "") ++
      toString (Int.floor (jsMod 125 60)) ∧
    formatTime2 125 = formatTime1 125 ∧
    formatTime2 (-1) = "0:00" :=
  formatTime_renders_m_ss 125 (-1) (by norm_num) (by norm_num)

/-! ## Audio session hook (`useBirthdayAudio`, both variants)

The media element and the hook's React state are modelled together;
`ok : Bool` stands for whether a `play()` promise resolved or rejected.  A
resolved `play()` is modelled as the element leaving the paused state and
firing its `play` event (whose handler updates `isPlaying`); observable
callback invocations and console logs are appended to `log`. -/

inductive AudioEvt where
  | onPlayCb : AudioEvt
  | onPauseCb : AudioEvt
  | onSongChangeCb : String → AudioEvt
  | onErrorCb : String → AudioEvt
  | consoleError : String → AudioEvt
  | playEvt : AudioEvt
  | pauseEvt : AudioEvt
  | loadStartEvt : AudioEvt
deriving DecidableEq, Repr

/-- Variant 1 of the hook: element source and paused flag, plus the
`isPlaying`, `currentSong`, `isLoading` state (no error field exists in
this variant). -/
structure AudioState1 where
  src : String
  paused : Bool
  isPlaying : Bool
  currentSong : String
  isLoading : Bool
  log : List AudioEvt
deriving DecidableEq, Repr

/-- Variant 1 `play`: on resolution the `.then` sets `isPlaying` and calls
`onPlay` (the element's `play` event also fires); on rejection the `.catch`
only logs to the console. -/
def play1 (st : AudioState1) (ok : Bool) : AudioState1 :=
  if ok then
    { st with
      paused := false
      isPlaying := true
      log := st.log ++ [AudioEvt.playEvt, AudioEvt.onPlayCb] }
  else
    { st with log := st.log ++ [AudioEvt.consoleError "play"] }

/-- Variant 1 `pause`: pauses the element unconditionally, sets
`isPlaying := false` and calls `onPause` (the `pause` event fires only if
the element was actually playing). -/
def pause1 (st : AudioState1) : AudioState1 :=
  { st with
    paused := true
    isPlaying := false
    log := st.log ++ (if st.paused then [] else [AudioEvt.pauseEvt]) ++ [AudioEvt.onPauseCb] }

/-- Variant 1 `togglePlay`: dispatches on the hook's `isPlaying` state. -/
def togglePlay1 (st : AudioState1) (ok : Bool) : AudioState1 :=
  if st.isPlaying then pause1 st else play1 st ok

/-- Variant 1 `changeSong`: no same-url guard; saves `wasPlaying`, swaps the
element source (assigning `src` invokes the media load algorithm, which
halts playback and fires `loadstart`, so `isLoading` becomes true), then
re-requests play if it was playing, and always calls `onSongChange`. -/
def changeSong1 (st : AudioState1) (songUrl : String) (ok : Bool) : AudioState1 :=
  let wasPlaying := !st.paused
  let st1 : AudioState1 :=
    { st with
      currentSong := songUrl
      src := songUrl
      paused := true
      isLoading := true
      log := st.log ++ [AudioEvt.loadStartEvt] }
  let st2 : AudioState1 :=
    if wasPlaying then
      (if ok then
        { st1 with
          paused := false
          isPlaying := true
          log := st1.log ++ [AudioEvt.playEvt] }
       else { st1 with log := st1.log ++ [AudioEvt.consoleError "newSong"] })
    else st1
  { st2 with log := st2.log ++ [AudioEvt.onSongChangeCb songUrl] }

/-- Variant 2 of the hook: adds the `errorState` field and the
`canAutoplay` flag (`autoplayBlocked = !canAutoplay`). -/
structure AudioState2 where
  src : String
  paused : Bool
  isPlaying : Bool
  currentSong : String
  isLoading : Bool
  errorState : Option String
  canAutoplay : Bool
  log : List AudioEvt
deriving DecidableEq, Repr

/-- Variant 2 `handleError`: records the message in `errorState`, calls the
optional `onError` observer and clears the loading flag. -/
def handleError2 (st : AudioState2) (msg : String) : AudioState2 :=
  { st with
    errorState := some msg
    isLoading := false
    log := st.log ++ [AudioEvt.consoleError msg, AudioEvt.onErrorCb msg] }

/-- Variant 2 `play`: resets `canAutoplay`, then requests playback; on
resolution the element's `play` event handler sets `isPlaying` and clears
the error; on rejection `handleError` runs. -/
def play2 (st : AudioState2) (ok : Bool) (msg : String) : AudioState2 :=
  let st1 : AudioState2 := { st with canAutoplay := true }
  if ok then
    { st1 with
      paused := false
      isPlaying := true
      errorState := none
      log := st1.log ++ [AudioEvt.playEvt, AudioEvt.onPlayCb] }
  else handleError2 st1 msg

/-- Variant 2 `pause`: guarded, pauses only when not already paused; the
`pause` event handler sets `isPlaying := false` and calls `onPause`. -/
def pause2 (st : AudioState2) : AudioState2 :=
  if st.paused then st
  else
    { st with
      paused := true
      isPlaying := false
      log := st.log ++ [AudioEvt.pauseEvt, AudioEvt.onPauseCb] }

/-- Variant 2 `togglePlay`: dispatches on the element's `paused` flag. -/
def togglePlay2 (st : AudioState2) (ok : Bool) (msg : String) : AudioState2 :=
  if st.paused then play2 st ok msg else pause2 st

/-- Variant 2 `changeSong`: guarded by `songUrl !== currentSong`; sets the
loading flag, records the new song and calls `onSongChange`.  The element
source swap and any renewed play attempt are deferred to the main effect. -/
def changeSong2 (st : AudioState2) (songUrl : String) : AudioState2 :=
  if songUrl ≠ st.currentSong then
    { st with
      isLoading := true
      currentSong := songUrl
      log := st.log ++ [AudioEvt.onSongChangeCb songUrl] }
  else st

/-- C1 counterexample: variant 1 has no same-url guard, so `changeSong`
with the already-loaded url still acts — it reloads the source, marks
loading and fires `onSongChange` — contradicting "acts only when url
differs from the currently loaded source". -/
theorem changeSong1_same_url_still_acts :
    (changeSong1 ⟨"a", true, false, "a", false, []⟩ "a" true).isLoading = true ∧
    changeSong1 ⟨"a", true, false, "a", false, []⟩ "a" true
      ≠ ⟨"a", true, false, "a", false, []⟩ := by
  exact ⟨by decide, by decide⟩

/-- C1 as amended: variant 2's `changeSong` acts only when the url differs
(no-op on the current url; otherwise marks loading and swaps the recorded
source, leaving playback state untouched); variant 1's `changeSong` acts
unconditionally, always reloading and marking loading.  In both variants a
paused session is not auto-resumed by the call, and active playback
continues (`isPlaying` is true on the new source) when the renewed play
request resolves. -/
theorem changeSong_guard_and_playback
    (stP stQ : AudioState1) (st2 : AudioState2) (url : String) (ok : Bool)
    (hne : url ≠ st2.currentSong) (hp : stP.paused = true) (hq : stQ.paused = false) :
    changeSong2 st2 st2.currentSong = st2 ∧
    (changeSong2 st2 url).isLoading = true ∧
    (changeSong2 st2 url).currentSong = url ∧
    (changeSong2 st2 url).isPlaying = st2.isPlaying ∧
    (changeSong2 st2 url).paused = st2.paused ∧
    (changeSong1 stP url ok).currentSong = url ∧
    (changeSong1 stP url ok).isLoading = true ∧
    (changeSong1 stP url ok).paused = true ∧
    (changeSong1 stP url ok).isPlaying = stP.isPlaying ∧
    (changeSong1 stQ url true).isPlaying = true ∧
    (changeSong1 stQ url true).paused = false := by
  refine ⟨by simp [changeSong2], ?_, ?_, ?_, ?_, ?_, ?_, ?_, ?_, ?_, ?_⟩
  all_goals simp [changeSong2, changeSong1, hne, hp, hq]

/-- Witness for the amended C1 with concrete paused, playing and
variant-2 sessions. -/
theorem changeSong_guard_and_playback_witness :
    changeSong2 ⟨"a", false, true, "a", false, none, true, []⟩ "a"
      = ⟨"a", false, true, "a", false, none, true, []⟩ ∧
    (changeSong2 ⟨"a", false, true, "a", false, none, true, []⟩ "b").isLoading = true ∧
    (changeSong2 ⟨"a", false, true, "a", false, none, true, []⟩ "b").currentSong = "b" ∧
    (changeSong2 ⟨"a", false, true, "a", false, none, true, []⟩ "b").isPlaying
      = (⟨"a", false, true, "a", false, none, true, []⟩ : AudioState2).isPlaying ∧
    (changeSong2 ⟨"a", false, true, "a", false, none, true, []⟩ "b").paused
      = (⟨"a", false, true, "a", false, none, true, []⟩ : AudioState2).paused ∧
    (changeSong1 ⟨"a", true, false, "a", false, []⟩ "b" false).currentSong = "b" ∧
    (changeSong1 ⟨"a", true, false, "a", false, []⟩ "b" false).isLoading = true ∧
    (changeSong1 ⟨"a", true, false, "a", false, []⟩ "b" false).paused = true ∧
    (changeSong1 ⟨"a", true, false, "a", false, []⟩ "b" false).isPlaying
      = (⟨"a", true, false, "a", false, []⟩ : AudioState1).isPlaying ∧
    (changeSong1 ⟨"a", false, true, "a", false, []⟩ "b" true).isPlaying = true ∧
    (changeSong1 ⟨"a", false, true, "a", false, []⟩ "b" true).paused = false :=
  changeSong_guard_and_playback ⟨"a", true, false, "a", false, []⟩
    ⟨"a", false, true, "a", false, []⟩ ⟨"a", false, true, "a", false, none, true, []⟩
    "b" false (by decide) rfl rfl

/-- C2 counterexample: in variant 1 a rejected play request leaves the
entire hook state unchanged apart from a console log — variant 1 has no
error field, so the rejection is recorded nowhere and no error condition is
signalled, contradicting the claim for that variant. -/
theorem play1_rejection_records_nothing :
    play1 ⟨"a", true, false, "a", false, []⟩ false
      = ⟨"a", true, false, "a", false, [AudioEvt.consoleError "play"]⟩ := by
  decide

/-- C2 as amended: in both variants a rejected `play()` is never raised to
the caller (the operation totally returns a successor state).  Variant 2
records the rejection in its error field, clears the loading flag and
invokes the optional `onError` observer, leaving `isPlaying` untouched,
while a successful play marks `isPlaying = true` and clears the error.
Variant 1 only logs a rejection to the console, leaving its state otherwise
unchanged; a successful play marks `isPlaying = true`. -/
theorem play_rejection_never_raised (st1 : AudioState1) (st2 : AudioState2) (msg : String) :
    (play2 st2 false msg).errorState = some msg ∧
    (play2 st2 false msg).isLoading = false ∧
    (play2 st2 false msg).log
      = st2.log ++ [AudioEvt.consoleError msg, AudioEvt.onErrorCb msg] ∧
    (play2 st2 false msg).isPlaying = st2.isPlaying ∧
    (play2 st2 true msg).isPlaying = true ∧
    (play2 st2 true msg).errorState = none ∧
    (play1 st1 true).isPlaying = true ∧
    play1 st1 false = { st1 with log := st1.log ++ [AudioEvt.consoleError "play"] } := by
  refine ⟨?_, ?_, ?_, ?_, ?_, ?_, ?_, ?_⟩
  all_goals simp [play1, play2, handleError2]

/-- C7: with the hook state in sync with the element (`isPlaying` mirrors
`!paused`, as the event handlers maintain), a single `togglePlay` dispatches
to play or pause according to the current paused state in both variants,
and two successive calls whose play requests resolve return the session to
the original playing state. -/
theorem togglePlay_twice_returns_to_original
    (st1 : AudioState1) (st2 : AudioState2) (ok : Bool) (msg : String)
    (h1 : st1.isPlaying = !st1.paused) (h2 : st2.isPlaying = !st2.paused) :
    togglePlay1 st1 ok = (if st1.paused then play1 st1 ok else pause1 st1) ∧
    togglePlay2 st2 ok msg = (if st2.paused then play2 st2 ok msg else pause2 st2) ∧
    (togglePlay1 (togglePlay1 st1 true) true).isPlaying = st1.isPlaying ∧
    (togglePlay1 (togglePlay1 st1 true) true).paused = st1.paused ∧
    (togglePlay2 (togglePlay2 st2 true msg) true msg).isPlaying = st2.isPlaying ∧
    (togglePlay2 (togglePlay2 st2 true msg) true msg).paused = st2.paused := by
  cases hp1 : st1.paused <;> cases hp2 : st2.paused <;>
    rw [hp1] at h1 <;> rw [hp2] at h2 <;>
    simp only [Bool.not_false, Bool.not_true] at h1 h2 <;>
    refine ⟨?_, ?_, ?_, ?_, ?_, ?_⟩ <;>
    simp [togglePlay1, togglePlay2, play1, play2, pause1, pause2, h1, h2, hp1, hp2]

/-- Witness for C7 with a concrete paused variant-1 session and a concrete
playing variant-2 session. -/
theorem togglePlay_twice_returns_to_original_witness :
    togglePlay1 ⟨"a", true, false, "a", false, []⟩ false
      = (if (⟨"a", true, false, "a", false, []⟩ : AudioState1).paused
         then play1 ⟨"a", true, false, "a", false, []⟩ false
         else pause1 ⟨"a", true, false, "a", false, []⟩) ∧
    togglePlay2 ⟨"a", false, true, "a", false, none, true, []⟩ false "m"
      = (if (⟨"a", false, true, "a", false, none, true, []⟩ : AudioState2).paused
         then play2 ⟨"a", false, true, "a", false, none, true, []⟩ false "m"
         else pause2 ⟨"a", false, true, "a", false, none, true, []⟩) ∧
    (togglePlay1 (togglePlay1 ⟨"a", true, false, "a", false, []⟩ true) true).isPlaying
      = (⟨"a", true, false, "a", false, []⟩ : AudioState1).isPlaying ∧
    (togglePlay1 (togglePlay1 ⟨"a", true, false, "a", false, []⟩ true) true).paused
      = (⟨"a", true, false, "a", false, []⟩ : AudioState1).paused ∧
    (togglePlay2 (togglePlay2 ⟨"a", false, true, "a", false, none, true, []⟩ true "m") true "m").isPlaying
      = (⟨"a", false, true, "a", false, none, true, []⟩ : AudioState2).isPlaying ∧
    (togglePlay2 (togglePlay2 ⟨"a", false, true, "a", false, none, true, []⟩ true "m") true "m").paused
      = (⟨"a", false, true, "a", false, none, true, []⟩ : AudioState2).paused :=
  togglePlay_twice_returns_to_original ⟨"a", true, false, "a", false, []⟩
    ⟨"a", false, true, "a", false, none, true, []⟩ false "m" rfl rfl

/-! ## Stage controller (`page.tsx`) and food data -/

/-- The `Stage` union type from `page.tsx`. -/
inductive Stage where
  | countdown | greeting | video | selection | result | partyRoom
  | guestbook | slideshow | poem | gift | photoBoothResult
deriving DecidableEq, Repr

/-- The four category keys of `foodData`. -/
inductive FoodCategory where
  | lightFood | heavyFood | dessert | drinks
deriving DecidableEq, Repr

/-- `foodData[category].dishes`. -/
def dishes : FoodCategory → List String
  | FoodCategory.lightFood =>
      ["Caprese Salad", "Avocado Toast", "Greek Yogurt Parfait", "Vegetable Sushi Roll"]
  | FoodCategory.heavyFood =>
      ["Grilled Steak with Mashed Potatoes", "Chicken Alfredo Pasta", "BBQ Pork Ribs",
       "Vegetable Lasagna"]
  | FoodCategory.dessert =>
      ["Chocolate Lava Cake", "Cheesecake with Berry Compote", "Tiramisu", "Creme Brulee"]
  | FoodCategory.drinks =>
      ["Mango Mojito", "Iced Caramel Latte", "Strawberry Smoothie", "Sparkling Lemonade"]

/-- `foodData[category].places`. -/
def places : FoodCategory → List String
  | FoodCategory.lightFood =>
      ["Caf\xe9 Bella", "Green Leaf Bistro", "Sunny Side Caf\xe9", "Urban Eats"]
  | FoodCategory.heavyFood =>
      ["The Grill House", "Italian Villa", "Smokehouse BBQ", "Mama\x27s Kitchen"]
  | FoodCategory.dessert =>
      ["Sweet Escape Bakery", "Dessert Haven", "Cocoa Bliss", "Sugar Spoon"]
  | FoodCategory.drinks =>
      ["Juice Junction", "Brewed Awakening", "Smoothie Stop", "Fizz \x26 Sip"]

/-- `Math.floor(Math.random() * length)` with the random draw `r ∈ [0, 1)`
made explicit. -/
def randIndex (r : ℚ) (len : Nat) : Nat := (Int.floor (r * (len : ℚ))).toNat

/-- The page-root selection state touched by the two handlers. -/
structure PageState where
  stage : Stage
  selectedCategory : Option FoodCategory
  selectedDish : Option String
  selectedPlace : Option String
deriving DecidableEq, Repr

/-- `handleCategorySelect`: records the category, randomly draws a dish and
a place from that category's tables, and moves the stage to `result`. -/
def handleCategorySelect (_st : PageState) (category : FoodCategory) (r1 r2 : ℚ) :
    PageState :=
  { stage := Stage.result
    selectedCategory := some category
    selectedDish := (dishes category).get? (randIndex r1 (dishes category).length)
    selectedPlace := (places category).get? (randIndex r2 (places category).length) }

/-- `handleTryAgain`: when a category is selected, re-draws the dish and
place from the same category's tables; otherwise does nothing. -/
def handleTryAgain (st : PageState) (r1 r2 : ℚ) : PageState :=
  match st.selectedCategory with
  | some category =>
    { st with
      selectedDish := (dishes category).get? (randIndex r1 (dishes category).length)
      selectedPlace := (places category).get? (randIndex r2 (places category).length) }
  | none => st

lemma randIndex_lt (r : ℚ) (len : Nat) (h0 : 0 ≤ r) (h1 : r < 1) (hl : 0 < len) :
    randIndex r len < len := by
  have hfl : Int.floor (r * (len : ℚ)) < (len : Int) := by
    apply Int.floor_lt.mpr
    push_cast
    calc r * (len : ℚ) < 1 * (len : ℚ) :=
          mul_lt_mul_of_pos_right h1 (by exact_mod_cast hl)
      _ = (len : ℚ) := one_mul _
  have h0' : 0 ≤ Int.floor (r * (len : ℚ)) :=
    Int.floor_nonneg.mpr (mul_nonneg h0 (by positivity))
  unfold randIndex
  omega

lemma get?_getD_mem (l : List String) (i : Nat) (h : i < l.length) :
    (l.get? i).isSome = true ∧ (l.get? i).getD "" ∈ l := by
  rw [List.get?_eq_get h]
  exact ⟨rfl, List.get_mem l i h⟩

/-- C8: for every category key and every outcome of the two random draws,
`handleCategorySelect` stores some dish from that category's dish table and
some place from that category's place table, and moves the stage to
`result`. -/
theorem handleCategorySelect_selects_from_category
    (st : PageState) (category : FoodCategory) (r1 r2 : ℚ)
    (h1 : 0 ≤ r1) (h2 : r1 < 1) (h3 : 0 ≤ r2) (h4 : r2 < 1) :
    (handleCategorySelect st category r1 r2).stage = Stage.result ∧
    (handleCategorySelect st category r1 r2).selectedCategory = some category ∧
    (handleCategorySelect st category r1 r2).selectedDish.isSome = true ∧
    (handleCategorySelect st category r1 r2).selectedDish.getD "" ∈ dishes category ∧
    (handleCategorySelect st category r1 r2).selectedPlace.isSome = true ∧
    (handleCategorySelect st category r1 r2).selectedPlace.getD "" ∈ places category := by
  have hd := get?_getD_mem (dishes category) (randIndex r1 (dishes category).length)
    (randIndex_lt r1 _ h1 h2 (by cases category <;> decide))
  have hq := get?_getD_mem (places category) (randIndex r2 (places category).length)
    (randIndex_lt r2 _ h3 h4 (by cases category <;> decide))
  exact ⟨rfl, rfl, hd.1, hd.2, hq.1, hq.2⟩

/-- Witness for C8 on the dessert category with draws 1/2 and 0. -/
theorem handleCategorySelect_selects_from_category_witness :
    (handleCategorySelect ⟨Stage.selection, none, none, none⟩ FoodCategory.dessert (1/2) 0).stage
      = Stage.result ∧
    (handleCategorySelect ⟨Stage.selection, none, none, none⟩ FoodCategory.dessert (1/2) 0).selectedCategory
      = some FoodCategory.dessert ∧
    (handleCategorySelect ⟨Stage.selection, none, none, none⟩ FoodCategory.dessert (1/2) 0).selectedDish.isSome
      = true ∧
    (handleCategorySelect ⟨Stage.selection, none, none, none⟩ FoodCategory.dessert (1/2) 0).selectedDish.getD ""
      ∈ dishes FoodCategory.dessert ∧
    (handleCategorySelect ⟨Stage.selection, none, none, none⟩ FoodCategory.dessert (1/2) 0).selectedPlace.isSome
      = true ∧
    (handleCategorySelect ⟨Stage.selection, none, none, none⟩ FoodCategory.dessert (1/2) 0).selectedPlace.getD ""
      ∈ places FoodCategory.dessert :=
  handleCategorySelect_selects_from_category ⟨Stage.selection, none, none, none⟩
    FoodCategory.dessert (1/2) 0 (by norm_num) (by norm_num) (by norm_num) (by norm_num)

/-- C9: `handleTryAgain` changes neither the selected category nor the
stage; with no category selected it changes nothing at all, and with a
selected category it only re-draws the dish and the place from that same
category's tables. -/
theorem handleTryAgain_frame (stN stS : PageState) (c : FoodCategory) (r1 r2 : ℚ)
    (hN : stN.selectedCategory = none) (hS : stS.selectedCategory = some c)
    (h1 : 0 ≤ r1) (h2 : r1 < 1) (h3 : 0 ≤ r2) (h4 : r2 < 1) :
    handleTryAgain stN r1 r2 = stN ∧
    (handleTryAgain stS r1 r2).stage = stS.stage ∧
    (handleTryAgain stS r1 r2).selectedCategory = stS.selectedCategory ∧
    (handleTryAgain stS r1 r2).selectedDish.isSome = true ∧
    (handleTryAgain stS r1 r2).selectedDish.getD "" ∈ dishes c ∧
    (handleTryAgain stS r1 r2).selectedPlace.isSome = true ∧
    (handleTryAgain stS r1 r2).selectedPlace.getD "" ∈ places c := by
  have hd := get?_getD_mem (dishes c) (randIndex r1 (dishes c).length)
    (randIndex_lt r1 _ h1 h2 (by cases c <;> decide))
  have hq := get?_getD_mem (places c) (randIndex r2 (places c).length)
    (randIndex_lt r2 _ h3 h4 (by cases c <;> decide))
  simp only [List.get?_eq_getElem?] at hd hq
  refine ⟨by simp [handleTryAgain, hN], ?_, ?_, ?_, ?_, ?_, ?_⟩ <;>
    simp [handleTryAgain, hS, hd.1, hd.2, hq.1, hq.2]

/-- Witness for C9 with an empty selection and a drinks selection. -/
theorem handleTryAgain_frame_witness :
    handleTryAgain ⟨Stage.selection, none, none, none⟩ (1/3) (2/3)
      = ⟨Stage.selection, none, none, none⟩ ∧
    (handleTryAgain ⟨Stage.result, some FoodCategory.drinks, none, none⟩ (1/3) (2/3)).stage
      = (⟨Stage.result, some FoodCategory.drinks, none, none⟩ : PageState).stage ∧
    (handleTryAgain ⟨Stage.result, some FoodCategory.drinks, none, none⟩ (1/3) (2/3)).selectedCategory
      = (⟨Stage.result, some FoodCategory.drinks, none, none⟩ : PageState).selectedCategory ∧
    (handleTryAgain ⟨Stage.result, some FoodCategory.drinks, none, none⟩ (1/3) (2/3)).selectedDish.isSome
      = true ∧
    (handleTryAgain ⟨Stage.result, some FoodCategory.drinks, none, none⟩ (1/3) (2/3)).selectedDish.getD ""
      ∈ dishes FoodCategory.drinks ∧
    (handleTryAgain ⟨Stage.result, some FoodCategory.drinks, none, none⟩ (1/3) (2/3)).selectedPlace.isSome
      = true ∧
    (handleTryAgain ⟨Stage.result, some FoodCategory.drinks, none, none⟩ (1/3) (2/3)).selectedPlace.getD ""
      ∈ places FoodCategory.drinks :=
  handleTryAgain_frame ⟨Stage.selection, none, none, none⟩
    ⟨Stage.result, some FoodCategory.drinks, none, none⟩ FoodCategory.drinks (1/3) (2/3)
    rfl rfl (by norm_num) (by norm_num) (by norm_num) (by norm_num)

/-! ## Guestbook form (`Guestbook.tsx`) -/

/-- The whitespace characters removed by the JS `String.prototype.trim`
(restricted to the ASCII white space characters). -/
def isJsSpace (c : Char) : Bool :=
  c == ' ' || c == '\t' || c == '\n' || c == '\r' || c == '\x0b' || c == '\x0c'

/-- JS `s.trim()`: drop leading and trailing whitespace. -/
def jsTrim (s : String) : String :=
  String.mk (((s.data.dropWhile isJsSpace).reverse.dropWhile isJsSpace).reverse)

/-- The guestbook form state touched by `handleSubmitMessage`. -/
structure GuestbookState where
  nameInput : String
  messageInput : String
  showThankYou : Bool
deriving DecidableEq, Repr

/-- `handleSubmitMessage`: when both trimmed inputs are truthy (non-empty),
show the thank-you confirmation and clear both fields; otherwise do
nothing. -/
def handleSubmitMessage (st : GuestbookState) : GuestbookState :=
  if jsTrim st.nameInput ≠ "" ∧ jsTrim st.messageInput ≠ "" then
    { nameInput := "", messageInput := "", showThankYou := true }
  else st

/-- C10: submitting the guestbook form shows the thank-you confirmation and
clears both inputs exactly when both the name and the message are non-blank
after trimming; otherwise the submission leaves the state unchanged. -/
theorem handleSubmitMessage_trim_guard (stY stX : GuestbookState)
    (hY : jsTrim stY.nameInput ≠ "" ∧ jsTrim stY.messageInput ≠ "")
    (hX : ¬ (jsTrim stX.nameInput ≠ "" ∧ jsTrim stX.messageInput ≠ "")) :
    handleSubmitMessage stY = ⟨"", "", true⟩ ∧
    handleSubmitMessage stX = stX := by
  constructor
  · rw [handleSubmitMessage, if_pos hY]
  · rw [handleSubmitMessage, if_neg hX]

/-- Witness for C10: a filled-in form is accepted and cleared; a form whose
name is only whitespace is left untouched. -/
theorem handleSubmitMessage_trim_guard_witness :
    handleSubmitMessage ⟨" Alex ", "Happy birthday!", false⟩ = ⟨"", "", true⟩ ∧
    handleSubmitMessage ⟨"   ", "Happy birthday!", false⟩
      = ⟨"   ", "Happy birthday!", false⟩ :=
  handleSubmitMessage_trim_guard ⟨" Alex ", "Happy birthday!", false⟩
    ⟨"   ", "Happy birthday!", false⟩ (by decide) (by decide)
